import Mathlib

/-!
Shallow embedding of the attendance application in `finalcode.py`:
the single `attendance` table, the Check-In / Check-Out button handlers,
the IP-geolocation resolver `get_ip_location`, the startup migration
`migrate_columns` (column addition and the legacy-location backfill),
and the admin search query.
-/

/-- SQL `REAL` values.  The program only stores, copies and null-checks
coordinates — it never computes with them — so rationals embed them
faithfully. -/
abbrev Coord := Rat

/-- One row of the `attendance` table (all columns are nullable in the
SQLite schema except the integer primary key). -/
structure AttendanceRecord where
  id : Nat
  username : String
  latitude : Option Coord
  longitude : Option Coord
  address : Option String
  checkin_time : Option String
  checkin_remark : Option String
  checkin_latitude : Option Coord
  checkin_longitude : Option Coord
  checkout_time : Option String
  checkout_remark : Option String
  checkout_latitude : Option Coord
  checkout_longitude : Option Coord
deriving DecidableEq

/-- The database: the `attendance` table contents plus the AUTOINCREMENT
counter that assigns the next row id. -/
structure DB where
  rows : List AttendanceRecord
  nextId : Nat
deriving DecidableEq

/-- What `geocoder.ip("me")` yields when it does not raise: the `latlng`
list (absent, empty, or a list of coordinates) and the `city`, `state`
and `country` attributes (each possibly absent). -/
structure GeoResponse where
  latlng : Option (List Coord)
  city : Option String
  state : Option String
  country : Option String
deriving DecidableEq

/-- Python `", ".join(parts)`. -/
def joinComma : List String → String
  | [] => ""
  | [s] => s
  | s :: rest => s ++ ", " ++ joinComma rest

/-- Python `filter(None, [city, state, country])`: the fields that are
present and truthy (non-empty). -/
def availableParts (g : GeoResponse) : List String :=
  [g.city, g.state, g.country].filterMap
    (fun o => o.bind (fun s => if s = "" then none else some s))

/-- The address computed inside `get_ip_location`:
`", ".join(filter(None, [city, state, country])) or "Unknown"`.
`or "Unknown"` replaces an empty join result. -/
def joinedAddress (g : GeoResponse) : String :=
  let joined := joinComma (availableParts g)
  if joined = "" then "Unknown" else joined

/-- `get_ip_location()`.  The argument is the outcome of the
`geocoder.ip("me")` call: `none` when it raises (network error), and
otherwise the response object.  The `try/except` returns
`(None, None, "Unknown")` on any exception; a `latlng` list with fewer
than two entries makes `latlng[1]` raise `IndexError`, which the same
handler catches. -/
def get_ip_location (resp : Option GeoResponse) : Option Coord × Option Coord × String :=
  match resp with
  | none => (none, none, "Unknown")
  | some g =>
    match g.latlng with
    | none => (none, none, joinedAddress g)
    | some [] => (none, none, joinedAddress g)
    | some [_] => (none, none, "Unknown")
    | some (a :: b :: _) => (some a, some b, joinedAddress g)

/-- Outcome reported by the Check-In button handler. -/
inductive CheckInOutcome where
  | validationError
  | inserted (rid : Nat)
deriving DecidableEq

/-- Outcome reported by the Check-Out button handler. -/
inductive CheckOutOutcome where
  | validationError
  | notFound
  | checkedOut (rid : Nat)
deriving DecidableEq

/-- Python `not username.strip()`: true iff the string has no
non-whitespace character. -/
def blankUsername (s : String) : Bool :=
  s.data.all (fun c => c.isWhitespace)

/-- The Check-In button handler.  `resp` is the geolocation response and
`now` the formatted current timestamp (`YYYY-MM-DD HH:MM:SS`).  A blank
username (`not username.strip()`) is rejected; otherwise one row is
inserted with the bound values
`(username, lat, lon, lat, lon, address, checkin_time, checkin_remark,
None, None, None, None)`. -/
def checkInHandler (db : DB) (username remark : String) (resp : Option GeoResponse)
    (now : String) : DB × CheckInOutcome :=
  if blankUsername username then (db, .validationError)
  else
    let loc := get_ip_location resp
    let r : AttendanceRecord :=
      { id := db.nextId
        username := username
        latitude := loc.1
        longitude := loc.2.1
        address := some loc.2.2
        checkin_time := some now
        checkin_remark := some remark
        checkin_latitude := loc.1
        checkin_longitude := loc.2.1
        checkout_time := none
        checkout_remark := none
        checkout_latitude := none
        checkout_longitude := none }
    ({ rows := db.rows ++ [r], nextId := db.nextId + 1 }, .inserted db.nextId)

/-- The rows matching
`SELECT ... WHERE username=? AND checkout_time IS NULL`. -/
def openRecords (db : DB) (u : String) : List AttendanceRecord :=
  db.rows.filter (fun r => decide (r.username = u ∧ r.checkout_time = none))

/-- Maximum id in a list of rows (`ORDER BY id DESC LIMIT 1`). -/
def maxId? : List AttendanceRecord → Option Nat
  | [] => none
  | r :: rs =>
    match maxId? rs with
    | none => some r.id
    | some m => some (max r.id m)

/-- `SELECT id FROM attendance WHERE username=? AND checkout_time IS NULL
ORDER BY id DESC LIMIT 1`. -/
def selectOpenId (db : DB) (u : String) : Option Nat :=
  maxId? (openRecords db u)

/-- The `UPDATE attendance SET checkout_time=?, checkout_remark=?,
checkout_latitude=?, checkout_longitude=? WHERE id=?` payload applied to
one row. -/
def setCheckout (now remark : String) (lat lon : Option Coord)
    (r : AttendanceRecord) : AttendanceRecord :=
  { r with
    checkout_time := some now
    checkout_remark := some remark
    checkout_latitude := lat
    checkout_longitude := lon }

/-- The Check-Out button handler: blank usernames are rejected first;
then the most recent (highest-id) open row for the username is selected;
if none exists the handler warns and changes nothing; otherwise that row
(matched by `WHERE id=?`) gets its four checkout columns set. -/
def checkOutHandler (db : DB) (username remark : String) (resp : Option GeoResponse)
    (now : String) : DB × CheckOutOutcome :=
  if blankUsername username then (db, .validationError)
  else
    match selectOpenId db username with
    | none => (db, .notFound)
    | some rid =>
      let loc := get_ip_location resp
      ({ db with
          rows := db.rows.map
            (fun r => if r.id = rid then setCheckout now remark loc.1 loc.2.1 r else r) },
       .checkedOut rid)

/-- Lexicographic `≤` on character lists: SQLite's BINARY collation is a
bytewise `memcmp`, which on UTF-8 text coincides with lexicographic
order of the code points. -/
def charsLe : List Char → List Char → Bool
  | [], _ => true
  | _ :: _, [] => false
  | a :: as, b :: bs =>
    if a.toNat < b.toNat then true
    else if a.toNat = b.toNat then charsLe as bs
    else false

/-- SQLite string `<=` (BINARY collation). -/
def strLe (a b : String) : Bool :=
  charsLe a.data b.data

/-- The WHERE clause of the admin search query: the username condition is
added only when the selector is not `"All"`, and
`substr(checkin_time,1,10) BETWEEN ? AND ?` (a NULL `checkin_time`
makes the BETWEEN NULL, excluding the row). -/
def searchMatches (selected_user start_str end_str : String)
    (r : AttendanceRecord) : Bool :=
  (decide (selected_user = "All") || decide (r.username = selected_user)) &&
  (match r.checkin_time with
   | none => false
   | some t => strLe start_str (t.take 10) && strLe (t.take 10) end_str)

/-- `ORDER BY id DESC`: row `a` may precede row `b` iff `b.id ≤ a.id`. -/
def idDesc (a b : AttendanceRecord) : Prop := b.id ≤ a.id

instance : DecidableRel idDesc := fun a b => inferInstanceAs (Decidable (b.id ≤ a.id))

instance : IsTotal AttendanceRecord idDesc := ⟨fun a b => Nat.le_total b.id a.id⟩

instance : IsTrans AttendanceRecord idDesc :=
  ⟨fun _ _ _ hab hbc => le_trans hbc hab⟩

/-- The admin search query:
`SELECT * FROM attendance WHERE 1=1 [AND username=?]
AND substr(checkin_time,1,10) BETWEEN ? AND ? ORDER BY id DESC`. -/
def searchQuery (db : DB) (selected_user start_str end_str : String) :
    List AttendanceRecord :=
  List.insertionSort idDesc
    (db.rows.filter (searchMatches selected_user start_str end_str))

/-- The `new_cols` dict of `migrate_columns`, in insertion order. -/
def new_cols : List (String × String) :=
  [("latitude", "REAL"),
   ("longitude", "REAL"),
   ("checkin_remark", "TEXT"),
   ("checkout_remark", "TEXT"),
   ("checkin_latitude", "REAL"),
   ("checkin_longitude", "REAL"),
   ("checkout_latitude", "REAL"),
   ("checkout_longitude", "REAL")]

/-- The column-addition loop of `migrate_columns`: `cols` is the
`PRAGMA table_info` snapshot; each expected column not in that snapshot
is added by an `ALTER TABLE`.  Returns the final column list and the
list of ALTER operations performed (column, type). -/
def addMissingColumns (cols : List String) : List String × List (String × String) :=
  new_cols.foldl
    (fun st ct => if ct.1 ∈ cols then st else (st.1 ++ [ct.1], st.2 ++ [ct]))
    (cols, [])

/-- The per-row effect of the backfill UPDATE of `migrate_columns`:
`SET latitude = checkin_latitude, longitude = checkin_longitude
WHERE (latitude IS NULL OR longitude IS NULL) AND checkin_latitude IS
NOT NULL AND checkin_longitude IS NOT NULL`. -/
def backfillRow (r : AttendanceRecord) : AttendanceRecord :=
  if (r.latitude = none ∨ r.longitude = none) ∧
      r.checkin_latitude ≠ none ∧ r.checkin_longitude ≠ none then
    { r with latitude := r.checkin_latitude, longitude := r.checkin_longitude }
  else r

/-- The backfill UPDATE applied to the whole table. -/
def migrate_backfill (db : DB) : DB :=
  { db with rows := db.rows.map backfillRow }

/-! Concrete tables used to instantiate the theorems. -/

/-- A closed record for alice. -/
def exampleRowClosed : AttendanceRecord :=
  ⟨1, "alice", some 12, some 77, some "Bengaluru", some "2024-01-01 09:00:00", some "start",
   some 12, some 77, some "2024-01-01 17:00:00", some "done", some 12, some 77⟩

/-- An open record for alice. -/
def exampleRowOpen : AttendanceRecord :=
  ⟨2, "alice", none, none, some "Unknown", some "2024-01-02 09:00:00", some "start",
   none, none, none, none, none, none⟩

/-- An open record for bob. -/
def exampleRowBob : AttendanceRecord :=
  ⟨3, "bob", none, none, none, some "2024-01-02 10:00:00", none,
   none, none, none, none, none, none⟩

/-- A table with one closed and one open record for alice and one open
record for bob. -/
def exampleDB : DB := ⟨[exampleRowClosed, exampleRowOpen, exampleRowBob], 4⟩

/-- An open record whose username is a single space. -/
def blankOpenRow : AttendanceRecord :=
  ⟨1, " ", none, none, none, some "2024-01-01 09:00:00", none,
   none, none, none, none, none, none⟩

/-- A table whose only open record belongs to the username `" "`. -/
def blankOpenDB : DB := ⟨[blankOpenRow], 2⟩

/-- A row with a non-null latitude but a null longitude and non-null
check-in coordinates. -/
def mixedNullRow : AttendanceRecord :=
  ⟨1, "bob", some 1, none, none, some "2024-01-01 09:00:00", none,
   some 5, some 6, none, none, none, none⟩

/-- A legacy row with both general-purpose coordinates null and both
check-in coordinates set. -/
def bothNullRow : AttendanceRecord :=
  ⟨1, "bob", none, none, none, some "2024-01-01 09:00:00", none,
   some 5, some 6, none, none, none, none⟩

/-- A successful geolocation response. -/
def exampleGeo : GeoResponse :=
  ⟨some [(12 : Coord), 77], some "Bengaluru", some "KA", some "India"⟩

/-- The full column set of the evolved `attendance` table. -/
def fullCols : List String :=
  ["id", "username", "latitude", "longitude", "address", "checkin_time", "checkin_remark",
   "checkin_latitude", "checkin_longitude", "checkout_time", "checkout_remark",
   "checkout_latitude", "checkout_longitude"]

/-! Helper lemmas. -/

lemma checkIn_eq (db : DB) (u remark : String) (resp : Option GeoResponse) (now : String)
    (hu : blankUsername u = false) :
    checkInHandler db u remark resp now =
      ({ rows := db.rows ++
          [{ id := db.nextId
             username := u
             latitude := (get_ip_location resp).1
             longitude := (get_ip_location resp).2.1
             address := some (get_ip_location resp).2.2
             checkin_time := some now
             checkin_remark := some remark
             checkin_latitude := (get_ip_location resp).1
             checkin_longitude := (get_ip_location resp).2.1
             checkout_time := none
             checkout_remark := none
             checkout_latitude := none
             checkout_longitude := none }]
         nextId := db.nextId + 1 }, CheckInOutcome.inserted db.nextId) := by
  simp [checkInHandler, hu]

lemma mem_openRecords {db : DB} {u : String} {r : AttendanceRecord} :
    r ∈ openRecords db u ↔ r ∈ db.rows ∧ r.username = u ∧ r.checkout_time = none := by
  simp [openRecords, List.mem_filter]

lemma maxId?_eq_none {l : List AttendanceRecord} : maxId? l = none ↔ l = [] := by
  cases l with
  | nil => simp [maxId?]
  | cons r rs => cases h : maxId? rs <;> simp [maxId?, h]

lemma maxId?_spec : ∀ {l : List AttendanceRecord} {m : Nat}, maxId? l = some m →
    (∃ r ∈ l, r.id = m) ∧ ∀ r ∈ l, r.id ≤ m := by
  intro l
  induction l with
  | nil => intro m h; simp [maxId?] at h
  | cons r rs ih =>
    intro m h
    cases hrs : maxId? rs with
    | none =>
      have hnil : rs = [] := maxId?_eq_none.mp hrs
      subst hnil
      simp [maxId?] at h
      subst h
      simp
    | some m2 =>
      rw [maxId?, hrs] at h
      have hm : m = max r.id m2 := by simpa using h.symm
      obtain ⟨⟨x, hx, hxid⟩, hall⟩ := ih hrs
      constructor
      · rcases Nat.le_total m2 r.id with hc | hc
        · exact ⟨r, List.mem_cons_self r rs, by omega⟩
        · exact ⟨x, List.mem_cons_of_mem r hx, by omega⟩
      · intro y hy
        rcases List.mem_cons.mp hy with hy | hy
        · subst hy; omega
        · have := hall y hy; omega

lemma nodup_ids_split {pre post : List AttendanceRecord} {r : AttendanceRecord}
    (hnd : ((pre ++ r :: post).map (fun x => x.id)).Nodup) :
    (∀ x ∈ pre, x.id ≠ r.id) ∧ (∀ x ∈ post, x.id ≠ r.id) := by
  rw [List.map_append, List.map_cons, List.nodup_append] at hnd
  obtain ⟨_, h2, h3⟩ := hnd
  rw [List.nodup_cons] at h2
  constructor
  · intro x hx heq
    exact h3 (List.mem_map_of_mem _ hx) (by simp [heq])
  · intro x hx heq
    exact h2.1 (heq ▸ List.mem_map_of_mem _ hx)

lemma checkOut_found (db : DB) (u remark : String) (resp : Option GeoResponse) (now : String)
    (hu : blankUsername u = false)
    (hnd : (db.rows.map (fun x => x.id)).Nodup)
    (hopen : openRecords db u ≠ []) :
    ∃ (pre post : List AttendanceRecord) (r : AttendanceRecord),
      db.rows = pre ++ r :: post ∧
      selectOpenId db u = some r.id ∧
      r.username = u ∧ r.checkout_time = none ∧
      (∀ x ∈ openRecords db u, x.id ≤ r.id) ∧
      checkOutHandler db u remark resp now =
        ({ rows := pre ++
            setCheckout now remark (get_ip_location resp).1 (get_ip_location resp).2.1 r :: post
           nextId := db.nextId }, CheckOutOutcome.checkedOut r.id) := by
  cases hm : selectOpenId db u with
  | none => exact absurd (maxId?_eq_none.mp hm) hopen
  | some m =>
    obtain ⟨⟨r, hrmem, hrid⟩, hmax⟩ := maxId?_spec hm
    subst hrid
    obtain ⟨hrrows, hru, hrct⟩ := mem_openRecords.mp hrmem
    obtain ⟨pre, post, hsplit⟩ := List.append_of_mem hrrows
    have hids := @nodup_ids_split pre post r (by rw [← hsplit]; exact hnd)
    refine ⟨pre, post, r, hsplit, rfl, hru, hrct, hmax, ?_⟩
    have hmap : db.rows.map
        (fun x => if x.id = r.id
          then setCheckout now remark (get_ip_location resp).1 (get_ip_location resp).2.1 x
          else x) =
        pre ++ setCheckout now remark (get_ip_location resp).1 (get_ip_location resp).2.1 r
          :: post := by
      rw [hsplit, List.map_append, List.map_cons]
      have hpre : pre.map
          (fun x => if x.id = r.id
            then setCheckout now remark (get_ip_location resp).1 (get_ip_location resp).2.1 x
            else x) = pre := by
        rw [show pre.map (fun x => if x.id = r.id
            then setCheckout now remark (get_ip_location resp).1 (get_ip_location resp).2.1 x
            else x) = pre.map id from
          List.map_congr_left (fun x hx => if_neg (hids.1 x hx)),
          List.map_id]
      have hpost : post.map
          (fun x => if x.id = r.id
            then setCheckout now remark (get_ip_location resp).1 (get_ip_location resp).2.1 x
            else x) = post := by
        rw [show post.map (fun x => if x.id = r.id
            then setCheckout now remark (get_ip_location resp).1 (get_ip_location resp).2.1 x
            else x) = post.map id from
          List.map_congr_left (fun x hx => if_neg (hids.2 x hx)),
          List.map_id]
      rw [hpre, hpost, if_pos rfl]
    simp only [checkOutHandler, hu, Bool.false_eq_true, if_false, hm]
    simp [hmap]

lemma backfillRow_idem (r : AttendanceRecord) : backfillRow (backfillRow r) = backfillRow r := by
  by_cases h : (r.latitude = none ∨ r.longitude = none) ∧
      r.checkin_latitude ≠ none ∧ r.checkin_longitude ≠ none
  · have h1 : backfillRow r =
        { r with latitude := r.checkin_latitude, longitude := r.checkin_longitude } := by
      rw [backfillRow]; exact if_pos h
    rw [h1, backfillRow]
    refine if_neg ?_
    intro hc
    rcases hc.1 with h2 | h2
    · exact h.2.1 h2
    · exact h.2.2 h2
  · have h1 : backfillRow r = r := by
      rw [backfillRow]; exact if_neg h
    rw [h1, h1]

lemma addMissing_foldl (cols : List String) :
    ∀ (l : List (String × String)) (s : List String) (a : List (String × String)),
      l.foldl (fun st ct => if ct.1 ∈ cols then st else (st.1 ++ [ct.1], st.2 ++ [ct])) (s, a) =
        (s ++ (l.filter (fun ct => decide (ct.1 ∉ cols))).map Prod.fst,
         a ++ l.filter (fun ct => decide (ct.1 ∉ cols))) := by
  intro l
  induction l with
  | nil => intro s a; simp
  | cons c cs ih =>
    intro s a
    by_cases hc : c.1 ∈ cols
    · have hd : decide (c.1 ∉ cols) = false := by simp [hc]
      simp only [List.foldl_cons, if_pos hc, List.filter_cons, hd]
      rw [ih]
      simp
    · have hd : decide (c.1 ∉ cols) = true := by simp [hc]
      simp only [List.foldl_cons, if_neg hc, List.filter_cons, hd]
      rw [ih]
      simp

lemma joinComma_ne_empty : ∀ (p : String) (ps : List String), p ≠ "" → joinComma (p :: ps) ≠ "" := by
  intro p ps hp
  cases ps with
  | nil => simpa [joinComma] using hp
  | cons q qs =>
    simp only [joinComma]
    intro hcontra
    have hlen := congrArg String.length hcontra
    rw [String.length_append, String.length_append] at hlen
    have hp' : p.length ≠ 0 := by
      intro h0
      apply hp
      have hd : p.data = [] := List.length_eq_zero.mp h0
      cases p; simp_all
    have h2 : (", " : String).length = 2 := rfl
    have h0 : ("" : String).length = 0 := rfl
    rw [h2, h0] at hlen
    omega

lemma availableParts_ne_empty (g : GeoResponse) :
    ∀ p ∈ availableParts g, p ≠ "" := by
  intro p hp
  simp only [availableParts, List.mem_filterMap] at hp
  obtain ⟨o, _, hpo⟩ := hp
  cases o with
  | none => simp at hpo
  | some s =>
    by_cases hs : s = ""
    · simp [hs] at hpo
    · simp [hs] at hpo
      subst hpo
      exact hs

lemma searchMatches_iff (su ss es : String) (r : AttendanceRecord) :
    searchMatches su ss es r = true ↔
      ((su = "All" ∨ r.username = su) ∧
       ∃ t, r.checkin_time = some t ∧
         strLe ss (t.take 10) = true ∧ strLe (t.take 10) es = true) := by
  cases hct : r.checkin_time with
  | none => simp [searchMatches, hct]
  | some t => simp [searchMatches, hct, Bool.and_eq_true, Bool.or_eq_true, decide_eq_true_iff]

/-! Claim theorems. -/

/-- C1: for every non-blank username, check-in appends exactly one new
record to the attendance table, with checkin_time the stamped timestamp,
checkin_remark the given remark, checkin coordinates and address the
resolver's result, and all four checkout fields null. -/
theorem claim_C1_checkin_inserts (db : DB) (u remark : String) (resp : Option GeoResponse)
    (now : String) (hu : blankUsername u = false) :
    ∃ r : AttendanceRecord,
      (checkInHandler db u remark resp now).1.rows = db.rows ++ [r] ∧
      (checkInHandler db u remark resp now).2 = CheckInOutcome.inserted r.id ∧
      r.username = u ∧ r.checkin_time = some now ∧ r.checkin_remark = some remark ∧
      r.checkin_latitude = (get_ip_location resp).1 ∧
      r.checkin_longitude = (get_ip_location resp).2.1 ∧
      r.address = some (get_ip_location resp).2.2 ∧
      r.checkout_time = none ∧ r.checkout_remark = none ∧
      r.checkout_latitude = none ∧ r.checkout_longitude = none := by
  rw [checkIn_eq db u remark resp now hu]
  exact ⟨_, rfl, rfl, rfl, rfl, rfl, rfl, rfl, rfl, rfl, rfl, rfl, rfl⟩

/-- C1 witness: a concrete check-in stores the username, timestamp and a
null checkout_time in the one inserted row. -/
theorem claim_C1_witness :
    (checkInHandler ⟨[], 1⟩ "alice" "start" none "2024-01-01 09:00:00").1.rows.map
        (fun r => (r.username, r.checkin_time, r.checkout_time)) =
      [("alice", some "2024-01-01 09:00:00", none)] := by
  obtain ⟨r, h1, h2, h3, h4, h5, h6, h7, h8, h9, h10, h11, h12⟩ :=
    claim_C1_checkin_inserts ⟨[], 1⟩ "alice" "start" none "2024-01-01 09:00:00" (by decide)
  simp [h1, h3, h4, h9]

/-- C4: a blank username (empty or all-whitespace) makes check-in signal
a validation error and leave the table unchanged. -/
theorem claim_C4_blank_checkin (db : DB) (u remark : String) (resp : Option GeoResponse)
    (now : String) (hu : blankUsername u = true) :
    checkInHandler db u remark resp now = (db, CheckInOutcome.validationError) := by
  simp [checkInHandler, hu]

/-- C4 witness at a concrete blank username. -/
theorem claim_C4_witness :
    checkInHandler ⟨[], 1⟩ "   " "r" none "t" = ((⟨[], 1⟩ : DB), CheckInOutcome.validationError) :=
  claim_C4_blank_checkin ⟨[], 1⟩ "   " "r" none "t" (by decide)

/-- C3 counterexample: the username `" "` has no open record in the empty
table, yet check-out does not signal NotFound for it — the blank-username
check fires first. -/
theorem claim_C3_counterexample :
    openRecords ⟨[], 1⟩ " " = [] ∧
    (checkOutHandler ⟨[], 1⟩ " " "r" none "t").2 ≠ CheckOutOutcome.notFound := by
  decide

/-- C3 (amended): for every non-blank username with no open record,
check-out signals NotFound and leaves the table unchanged; a blank
username signals a validation error instead, likewise leaving the table
unchanged. -/
theorem claim_C3_checkout_no_open (db : DB) (u remark : String) (resp : Option GeoResponse)
    (now : String) :
    (blankUsername u = false → openRecords db u = [] →
      checkOutHandler db u remark resp now = (db, CheckOutOutcome.notFound)) ∧
    (blankUsername u = true →
      checkOutHandler db u remark resp now = (db, CheckOutOutcome.validationError)) := by
  constructor
  · intro hu hopen
    simp [checkOutHandler, hu, selectOpenId, hopen, maxId?]
  · intro hu
    simp [checkOutHandler, hu]

/-- C3 witness at concrete inputs for both branches. -/
theorem claim_C3_witness :
    checkOutHandler ⟨[], 1⟩ "bob" "x" none "t" = ((⟨[], 1⟩ : DB), CheckOutOutcome.notFound) ∧
    checkOutHandler blankOpenDB " " "x" none "t" = (blankOpenDB, CheckOutOutcome.validationError) :=
  ⟨(claim_C3_checkout_no_open ⟨[], 1⟩ "bob" "x" none "t").1 (by decide) (by decide),
   (claim_C3_checkout_no_open blankOpenDB " " "x" none "t").2 (by decide)⟩

/-- C2 counterexample: a table whose only open record belongs to the
username `" "`.  The claim predicts check-out updates that record, but
the handler rejects the blank username and leaves the record open. -/
theorem claim_C2_counterexample :
    openRecords blankOpenDB " " ≠ [] ∧
    checkOutHandler blankOpenDB " " "bye" none "2024-01-01 17:00:00" =
      (blankOpenDB, CheckOutOutcome.validationError) := by
  decide

/-- C2 (amended): for every non-blank username with at least one open
record, in a table with distinct ids (the primary key), check-out picks
the open record of that username with the highest id, sets exactly its
checkout_time, checkout_remark and checkout coordinates, and leaves all
its other fields and every other record unchanged. -/
theorem claim_C2_checkout_updates (db : DB) (u remark : String) (resp : Option GeoResponse)
    (now : String) (hu : blankUsername u = false)
    (hnd : (db.rows.map (fun x => x.id)).Nodup)
    (hopen : openRecords db u ≠ []) :
    ∃ (pre post : List AttendanceRecord) (r updated : AttendanceRecord),
      db.rows = pre ++ r :: post ∧
      r.username = u ∧ r.checkout_time = none ∧
      (∀ x ∈ openRecords db u, x.id ≤ r.id) ∧
      (checkOutHandler db u remark resp now).1.rows = pre ++ updated :: post ∧
      (checkOutHandler db u remark resp now).1.nextId = db.nextId ∧
      (checkOutHandler db u remark resp now).2 = CheckOutOutcome.checkedOut r.id ∧
      updated.checkout_time = some now ∧
      updated.checkout_remark = some remark ∧
      updated.checkout_latitude = (get_ip_location resp).1 ∧
      updated.checkout_longitude = (get_ip_location resp).2.1 ∧
      updated.id = r.id ∧ updated.username = r.username ∧
      updated.latitude = r.latitude ∧ updated.longitude = r.longitude ∧
      updated.address = r.address ∧ updated.checkin_time = r.checkin_time ∧
      updated.checkin_remark = r.checkin_remark ∧
      updated.checkin_latitude = r.checkin_latitude ∧
      updated.checkin_longitude = r.checkin_longitude := by
  obtain ⟨pre, post, r, hsplit, hsel, hru, hrct, hmax, heq⟩ :=
    checkOut_found db u remark resp now hu hnd hopen
  refine ⟨pre, post, r,
    setCheckout now remark (get_ip_location resp).1 (get_ip_location resp).2.1 r,
    hsplit, hru, hrct, hmax, ?_, ?_, ?_,
    rfl, rfl, rfl, rfl, rfl, rfl, rfl, rfl, rfl, rfl, rfl, rfl, rfl⟩
  · rw [heq]
  · rw [heq]
  · rw [heq]

/-- C2 witness: the amended statement instantiated at a concrete table
with one closed and one open record for alice and one open record for
bob. -/
theorem claim_C2_witness :
    ∃ (pre post : List AttendanceRecord) (r updated : AttendanceRecord),
      exampleDB.rows = pre ++ r :: post ∧
      r.username = "alice" ∧ r.checkout_time = none ∧
      (∀ x ∈ openRecords exampleDB "alice", x.id ≤ r.id) ∧
      (checkOutHandler exampleDB "alice" "bye" none "2024-01-01 18:00:00").1.rows =
        pre ++ updated :: post ∧
      (checkOutHandler exampleDB "alice" "bye" none "2024-01-01 18:00:00").1.nextId =
        exampleDB.nextId ∧
      (checkOutHandler exampleDB "alice" "bye" none "2024-01-01 18:00:00").2 =
        CheckOutOutcome.checkedOut r.id ∧
      updated.checkout_time = some "2024-01-01 18:00:00" ∧
      updated.checkout_remark = some "bye" ∧
      updated.checkout_latitude = (get_ip_location none).1 ∧
      updated.checkout_longitude = (get_ip_location none).2.1 ∧
      updated.id = r.id ∧ updated.username = r.username ∧
      updated.latitude = r.latitude ∧ updated.longitude = r.longitude ∧
      updated.address = r.address ∧ updated.checkin_time = r.checkin_time ∧
      updated.checkin_remark = r.checkin_remark ∧
      updated.checkin_latitude = r.checkin_latitude ∧
      updated.checkin_longitude = r.checkin_longitude :=
  claim_C2_checkout_updates exampleDB "alice" "bye" none "2024-01-01 18:00:00"
    (by decide) (by decide) (by decide)

/-- C10: check-in stores the entered username verbatim, and check-out
matches it by exact string equality: after a check-in under `u`, a
check-out under any different string `v` with no prior open record still
finds nothing.  In particular `"alice "` and `"alice"` behave as
distinct users. -/
theorem claim_C10_whitespace_distinct (db : DB) (u v remark remark2 : String)
    (resp resp2 : Option GeoResponse) (now now2 : String)
    (hu : blankUsername u = false) (hv : blankUsername v = false) (huv : u ≠ v)
    (hnov : openRecords db v = []) :
    ∃ r : AttendanceRecord,
      (checkInHandler db u remark resp now).1.rows = db.rows ++ [r] ∧
      r.username = u ∧ r.checkout_time = none ∧
      checkOutHandler (checkInHandler db u remark resp now).1 v remark2 resp2 now2 =
        ((checkInHandler db u remark resp now).1, CheckOutOutcome.notFound) := by
  rw [checkIn_eq db u remark resp now hu]
  refine ⟨_, rfl, rfl, rfl, ?_⟩
  have hopen : openRecords
      ({ rows := db.rows ++
          [{ id := db.nextId
             username := u
             latitude := (get_ip_location resp).1
             longitude := (get_ip_location resp).2.1
             address := some (get_ip_location resp).2.2
             checkin_time := some now
             checkin_remark := some remark
             checkin_latitude := (get_ip_location resp).1
             checkin_longitude := (get_ip_location resp).2.1
             checkout_time := none
             checkout_remark := none
             checkout_latitude := none
             checkout_longitude := none }]
         nextId := db.nextId + 1 } : DB) v = [] := by
    simp only [openRecords] at hnov ⊢
    rw [List.filter_append, hnov]
    simp [huv]
  simp [checkOutHandler, hv, selectOpenId, hopen, maxId?]

/-- C10 witness: `"alice "` checks in; `"alice"` cannot check out. -/
theorem claim_C10_witness :
    ∃ r : AttendanceRecord,
      (checkInHandler ⟨[], 1⟩ "alice " "r" none "t").1.rows = ([] : List AttendanceRecord) ++ [r] ∧
      r.username = "alice " ∧ r.checkout_time = none ∧
      checkOutHandler (checkInHandler ⟨[], 1⟩ "alice " "r" none "t").1 "alice" "x" none "t2" =
        ((checkInHandler ⟨[], 1⟩ "alice " "r" none "t").1, CheckOutOutcome.notFound) :=
  claim_C10_whitespace_distinct ⟨[], 1⟩ "alice " "alice" "r" "x" none none "t" "t2"
    (by decide) (by decide) (by decide) (by decide)

/-- C7 counterexample: from the empty table, two consecutive check-ins
for `"alice"` — a reachable operation sequence — leave two open records
for that username, so the at-most-one-open-record invariant fails. -/
theorem claim_C7_counterexample :
    (openRecords (checkInHandler (checkInHandler ⟨[], 1⟩ "alice" "r" none "t1").1
        "alice" "r" none "t2").1 "alice").length = 2 := by
  decide

/-- C7 (amended): the at-most-one-open-record invariant is not
maintained — check-in never looks for an existing open record.  What
holds instead: every non-blank check-in increases the username's
open-record count by exactly one, and every successful check-out (on a
table with distinct ids) decreases it by exactly one. -/
theorem claim_C7_open_count (db : DB) (u remark : String) (resp : Option GeoResponse)
    (now : String) :
    (blankUsername u = false →
      (openRecords (checkInHandler db u remark resp now).1 u).length =
        (openRecords db u).length + 1) ∧
    (blankUsername u = false → (db.rows.map (fun x => x.id)).Nodup →
      openRecords db u ≠ [] →
      (openRecords (checkOutHandler db u remark resp now).1 u).length + 1 =
        (openRecords db u).length) := by
  constructor
  · intro hu
    rw [checkIn_eq db u remark resp now hu]
    simp [openRecords, List.filter_append]
  · intro hu hnd hopen
    obtain ⟨pre, post, r, hsplit, hsel, hru, hrct, hmax, heq⟩ :=
      checkOut_found db u remark resp now hu hnd hopen
    rw [heq]
    simp only [openRecords, hsplit, List.filter_append, List.filter_cons]
    have hP : decide (r.username = u ∧ r.checkout_time = none) = true := by
      simp [hru, hrct]
    have hQ : decide
        ((setCheckout now remark (get_ip_location resp).1 (get_ip_location resp).2.1 r).username
          = u ∧
         (setCheckout now remark (get_ip_location resp).1 (get_ip_location resp).2.1
           r).checkout_time = none) = false := by
      simp [setCheckout]
    rw [hP, hQ]
    simp
    omega

/-- C7 witness: the amended step facts at concrete tables. -/
theorem claim_C7_witness :
    (openRecords (checkInHandler ⟨[], 1⟩ "alice" "r" none "t").1 "alice").length =
        (openRecords (⟨[], 1⟩ : DB) "alice").length + 1 ∧
    (openRecords (checkOutHandler exampleDB "alice" "x" none "t").1 "alice").length + 1 =
        (openRecords exampleDB "alice").length :=
  ⟨(claim_C7_open_count ⟨[], 1⟩ "alice" "r" none "t").1 (by decide),
   (claim_C7_open_count exampleDB "alice" "x" none "t").2 (by decide) (by decide) (by decide)⟩

/-- C6 counterexample: a row with non-null latitude, null longitude and
non-null check-in coordinates is outside the claimed copy set (its
latitude/longitude are not both null), yet the backfill overwrites its
latitude — the SQL condition is an OR, not an AND. -/
theorem claim_C6_counterexample :
    mixedNullRow.latitude = some 1 ∧ mixedNullRow.longitude = none ∧
    mixedNullRow.checkin_latitude = some 5 ∧ mixedNullRow.checkin_longitude = some 6 ∧
    migrate_backfill ⟨[mixedNullRow], 2⟩ ≠ (⟨[mixedNullRow], 2⟩ : DB) ∧
    (migrate_backfill ⟨[mixedNullRow], 2⟩).rows.map (fun r => r.latitude) = [some 5] := by
  decide

/-- C6 (amended): the backfill copies checkin_latitude/checkin_longitude
into latitude/longitude exactly for the rows where at least one of
latitude/longitude is null and both checkin coordinates are non-null
(overwriting both fields), leaves every other row and field unchanged,
and running it twice equals running it once. -/
theorem claim_C6_backfill (db : DB) :
    (migrate_backfill db).rows.length = db.rows.length ∧
    (∀ i (h1 : i < db.rows.length) (h2 : i < (migrate_backfill db).rows.length),
      ((((db.rows.get ⟨i, h1⟩).latitude = none ∨ (db.rows.get ⟨i, h1⟩).longitude = none) ∧
          (db.rows.get ⟨i, h1⟩).checkin_latitude ≠ none ∧
          (db.rows.get ⟨i, h1⟩).checkin_longitude ≠ none →
        (migrate_backfill db).rows.get ⟨i, h2⟩ =
          { db.rows.get ⟨i, h1⟩ with
              latitude := (db.rows.get ⟨i, h1⟩).checkin_latitude
              longitude := (db.rows.get ⟨i, h1⟩).checkin_longitude }) ∧
       (¬ (((db.rows.get ⟨i, h1⟩).latitude = none ∨ (db.rows.get ⟨i, h1⟩).longitude = none) ∧
          (db.rows.get ⟨i, h1⟩).checkin_latitude ≠ none ∧
          (db.rows.get ⟨i, h1⟩).checkin_longitude ≠ none) →
        (migrate_backfill db).rows.get ⟨i, h2⟩ = db.rows.get ⟨i, h1⟩))) ∧
    migrate_backfill (migrate_backfill db) = migrate_backfill db := by
  refine ⟨by simp [migrate_backfill], ?_, ?_⟩
  · intro i h1 h2
    have hget : (migrate_backfill db).rows.get ⟨i, h2⟩ = backfillRow (db.rows.get ⟨i, h1⟩) := by
      simp [migrate_backfill, List.get_eq_getElem, List.getElem_map]
    constructor
    · intro hc
      rw [hget, backfillRow]
      exact if_pos hc
    · intro hc
      rw [hget, backfillRow]
      exact if_neg hc
  · show ({ rows := (db.rows.map backfillRow).map backfillRow, nextId := db.nextId } : DB) =
      { rows := db.rows.map backfillRow, nextId := db.nextId }
    rw [List.map_map]
    congr 1
    exact List.map_congr_left (fun x _ => backfillRow_idem x)

/-- C6 witness: a legacy row with both general-purpose coordinates null
gets the check-in coordinates copied in. -/
theorem claim_C6_witness :
    (migrate_backfill ⟨[bothNullRow], 2⟩).rows.get ⟨0, by decide⟩ =
      { bothNullRow with
          latitude := bothNullRow.checkin_latitude
          longitude := bothNullRow.checkin_longitude } :=
  ((claim_C6_backfill ⟨[bothNullRow], 2⟩).2.1 0 (by decide) (by decide)).1 (by decide)

/-- C9: the column-addition loop performs zero ALTERs when every expected
column is already present, adds exactly the missing columns (with their
declared types, in dict order) otherwise, and is idempotent: a second
run performs zero ALTERs and leaves the column set unchanged. -/
theorem claim_C9_ensure_columns (cols : List String) :
    ((∀ ct ∈ new_cols, ct.1 ∈ cols) → addMissingColumns cols = (cols, [])) ∧
    (addMissingColumns cols).1 =
      cols ++ (new_cols.filter (fun ct => decide (ct.1 ∉ cols))).map Prod.fst ∧
    (addMissingColumns cols).2 = new_cols.filter (fun ct => decide (ct.1 ∉ cols)) ∧
    (addMissingColumns (addMissingColumns cols).1).1 = (addMissingColumns cols).1 ∧
    (addMissingColumns (addMissingColumns cols).1).2 = [] := by
  have hall : ∀ (cols2 : List String), (∀ ct ∈ new_cols, ct.1 ∈ cols2) →
      addMissingColumns cols2 = (cols2, []) := by
    intro cols2 hc
    rw [addMissingColumns, addMissing_foldl cols2 new_cols cols2 []]
    have hnil : new_cols.filter (fun ct => decide (ct.1 ∉ cols2)) = [] := by
      rw [List.filter_eq_nil_iff]
      intro ct hct
      rw [decide_eq_true_iff]
      exact not_not_intro (hc ct hct)
    rw [hnil]
    simp
  have h1 : (addMissingColumns cols).1 =
      cols ++ (new_cols.filter (fun ct => decide (ct.1 ∉ cols))).map Prod.fst := by
    rw [addMissingColumns, addMissing_foldl cols new_cols cols []]
  have h2 : (addMissingColumns cols).2 = new_cols.filter (fun ct => decide (ct.1 ∉ cols)) := by
    rw [addMissingColumns, addMissing_foldl cols new_cols cols []]
    simp
  have hmem : ∀ ct ∈ new_cols, ct.1 ∈ (addMissingColumns cols).1 := by
    intro ct hct
    rw [h1]
    by_cases hc : ct.1 ∈ cols
    · exact List.mem_append_left _ hc
    · refine List.mem_append_right _ ?_
      refine List.mem_map_of_mem Prod.fst ?_
      rw [List.mem_filter]
      exact ⟨hct, by simp [hc]⟩
  refine ⟨hall cols, h1, h2, ?_, ?_⟩
  · rw [hall ((addMissingColumns cols).1) hmem]
  · rw [hall ((addMissingColumns cols).1) hmem]

/-- C9 witness: on the full column set the loop performs zero ALTERs. -/
theorem claim_C9_witness :
    addMissingColumns fullCols = (fullCols, []) :=
  (claim_C9_ensure_columns fullCols).1 (by decide)

/-- C5 counterexample: a response with no coordinates (`latlng` absent —
the "no result" failure) but an available city field yields
`(null, null, "Paris")`, not `(null, null, "Unknown")` as claimed. -/
theorem claim_C5_counterexample :
    (GeoResponse.mk none (some "Paris") none none).latlng = none ∧
    get_ip_location (some (GeoResponse.mk none (some "Paris") none none)) ≠
      (none, none, "Unknown") := by
  decide

/-- C5 (amended): the resolver never raises.  When the lookup itself
raises (network error) or `latlng` is malformed (non-empty but too
short), it returns exactly `(null, null, "Unknown")`.  When `latlng` is
absent or empty, the coordinates are null but the address is still
composed from the available non-empty locality/region/country fields,
joined with ", "; the address is "Unknown" exactly when no such field is
available. -/
theorem claim_C5_location_resolver :
    (get_ip_location none = (none, none, "Unknown")) ∧
    (∀ g : GeoResponse, g.latlng = none →
      get_ip_location (some g) = (none, none, joinedAddress g)) ∧
    (∀ g : GeoResponse, g.latlng = some [] →
      get_ip_location (some g) = (none, none, joinedAddress g)) ∧
    (∀ (g : GeoResponse) (a : Coord), g.latlng = some [a] →
      get_ip_location (some g) = (none, none, "Unknown")) ∧
    (∀ (g : GeoResponse) (a b : Coord) (rest : List Coord),
      g.latlng = some (a :: b :: rest) →
      get_ip_location (some g) = (some a, some b, joinedAddress g)) ∧
    (∀ g : GeoResponse, availableParts g = [] → joinedAddress g = "Unknown") ∧
    (∀ g : GeoResponse, availableParts g ≠ [] →
      joinedAddress g = joinComma (availableParts g)) := by
  refine ⟨rfl, ?_, ?_, ?_, ?_, ?_, ?_⟩
  · intro g h; simp [get_ip_location, h]
  · intro g h; simp [get_ip_location, h]
  · intro g a h; simp [get_ip_location, h]
  · intro g a b rest h; simp [get_ip_location, h]
  · intro g h; simp [joinedAddress, h, joinComma]
  · intro g h
    cases hv : availableParts g with
    | nil => exact absurd hv h
    | cons p ps =>
      have hp : p ≠ "" :=
        availableParts_ne_empty g p (by rw [hv]; exact List.mem_cons_self p ps)
      simp only [joinedAddress, hv]
      rw [if_neg (joinComma_ne_empty p ps hp)]

/-- C5 witness: a fully populated response resolves to its coordinates
and to the three fields joined with ", ". -/
theorem claim_C5_witness :
    get_ip_location (some exampleGeo) = (some 12, some 77, joinedAddress exampleGeo) ∧
    joinedAddress exampleGeo = "Bengaluru, KA, India" :=
  ⟨claim_C5_location_resolver.2.2.2.2.1 exampleGeo 12 77 [] rfl, by decide⟩

/-- C8: the admin search returns exactly the rows whose username matches
the filter (all rows when the filter is "All") and whose checkin_time's
first 10 characters lie between the two date strings inclusive, ordered
by descending id. -/
theorem claim_C8_search (db : DB) (selected_user start_str end_str : String) :
    List.Perm (searchQuery db selected_user start_str end_str)
      (db.rows.filter (searchMatches selected_user start_str end_str)) ∧
    (∀ r : AttendanceRecord, r ∈ searchQuery db selected_user start_str end_str ↔
      (r ∈ db.rows ∧ (selected_user = "All" ∨ r.username = selected_user) ∧
       ∃ t, r.checkin_time = some t ∧
         strLe start_str (t.take 10) = true ∧ strLe (t.take 10) end_str = true)) ∧
    List.Pairwise (fun a b => b.id ≤ a.id) (searchQuery db selected_user start_str end_str) := by
  refine ⟨List.perm_insertionSort idDesc _, ?_, ?_⟩
  · intro r
    rw [searchQuery, List.mem_insertionSort, List.mem_filter, searchMatches_iff]
  · have h := List.sorted_insertionSort idDesc
      (db.rows.filter (searchMatches selected_user start_str end_str))
    exact List.Pairwise.imp (fun hab => hab) h
